import Mathlib

set_option maxHeartbeats 1000000

/-!
Verification development for the NFL franchise-sim scraper scripts
(`spotrac_scraper.py`, `spotrac_roster_scraper.py`, `madden_scraper.py`).

The three Python scripts are shallowly embedded below.  Modelling decisions:

* Python `int` is modelled by `Int` (or `Nat` where the source value is a
  digit-run and hence non-negative).
* Python `float(...)` parsing is modelled by `pyFloat`, an exact decimal
  parser producing a sign / integer-numerator / decimal-exponent triple;
  subsequent `int(value * scale)` truncation is modelled exactly over the
  rationals by `pyIntScaled`.  IEEE-754 rounding of Python floats, the
  exponent / `inf` / `nan` / underscore forms accepted by `float`, and
  non-ASCII case mapping of `str.upper` are outside the model; none of the
  claims depend on them.
* HTML pages fetched over HTTP are modelled by `Page` / `Table` / `Cell`
  values; a failed fetch (network error or non-2xx status, which the
  scripts turn into a caught exception) is modelled by `none`.
* Writing JSON files is modelled by a pure file-system map
  `FS := String → Option String` updated by `writeFile`; `json.dump`
  with `indent=2` is modelled by concrete renderers producing the exact
  serialized text for the fixed schemas the scripts emit (string escaping
  is modelled for quote and backslash; control characters and non-ASCII
  escapes are not exercised by the claims).
-/

/-! ## Python string primitives -/

/-- ASCII whitespace recognised by Python `str.strip()` / `float()`. -/
def isPyWs (c : Char) : Bool :=
  c == ' ' || c == '\t' || c == '\n' || c == '\x0d' || c == '\x0b' || c == '\x0c'

/-- Model of Python `str.strip()` on a character list. -/
def pyStripChars (l : List Char) : List Char :=
  ((l.dropWhile isPyWs).reverse.dropWhile isPyWs).reverse

/-- Model of Python `str.strip()`. -/
def pyStrip (s : String) : String := String.mk (pyStripChars s.data)

/-- Model of Python `str.replace(c, "")`: drop every occurrence of `c`. -/
def removeAll (l : List Char) (c : Char) : List Char := l.filter (fun x => x != c)

/-- ASCII uppercase map, modelling `str.upper()` on the inputs exercised. -/
def asciiUpper (c : Char) : Char :=
  if 'a' ≤ c ∧ c ≤ 'z' then Char.ofNat (c.toNat - 32) else c

/-- Numeric value of a digit run (most significant digit first). -/
def digitsToNat (ds : List Char) : Nat := ds.foldl (fun a c => 10 * a + (c.toNat - 48)) 0

/-- Exact value of a decimal literal accepted by Python `float`:
sign, integer numerator and power-of-ten denominator exponent. -/
structure PyDec where
  neg : Bool
  num : Nat
  dExp : Nat
deriving DecidableEq

/-- Model of Python `float(s)`: optional surrounding whitespace, optional
sign, digits with at most one decimal point and at least one digit.
Returns `none` for every string `float` rejects. -/
def pyFloat (cs0 : List Char) : Option PyDec :=
  let cs1 := pyStripChars cs0
  let sc : Bool × List Char :=
    match cs1 with
    | '-' :: r => (true, r)
    | '+' :: r => (false, r)
    | r => (false, r)
  let d1 := sc.2.takeWhile Char.isDigit
  let rest1 := sc.2.dropWhile Char.isDigit
  match rest1 with
  | [] => if d1.isEmpty then none else some ⟨sc.1, digitsToNat d1, 0⟩
  | '.' :: rest2 =>
    let d2 := rest2.takeWhile Char.isDigit
    let rest3 := rest2.dropWhile Char.isDigit
    if rest3.isEmpty && !(d1.isEmpty && d2.isEmpty) then
      some ⟨sc.1, digitsToNat (d1 ++ d2), d2.length⟩
    else none
  | _ => none

/-- Model of Python `int(value * scale)` for a parsed decimal `value`:
exact multiplication followed by truncation toward zero. -/
def pyIntScaled (d : PyDec) (scale : Nat) : Int :=
  let m : Nat := d.num * scale / 10 ^ d.dExp
  if d.neg then -(m : Int) else (m : Int)

/-- Result of one `float`-then-`int` branch of `parse_money`; a failed
parse is the caught `ValueError`, yielding 0. -/
def moneyBranch (t : Option PyDec) (scale : Nat) : Int :=
  match t with
  | none => 0
  | some d => pyIntScaled d scale

/-! ## The TEAMS table (identical literal in all three scripts) -/

/-- The 32-entry team-slug to abbreviation table; the same literal dict
appears as `TEAMS` in each of the three scripts, in this insertion order. -/
def nflTeamsTable : List (String × String) :=
  [("arizona-cardinals", "ARI"), ("atlanta-falcons", "ATL"),
   ("baltimore-ravens", "BAL"), ("buffalo-bills", "BUF"),
   ("carolina-panthers", "CAR"), ("chicago-bears", "CHI"),
   ("cincinnati-bengals", "CIN"), ("cleveland-browns", "CLE"),
   ("dallas-cowboys", "DAL"), ("denver-broncos", "DEN"),
   ("detroit-lions", "DET"), ("green-bay-packers", "GB"),
   ("houston-texans", "HOU"), ("indianapolis-colts", "IND"),
   ("jacksonville-jaguars", "JAX"), ("kansas-city-chiefs", "KC"),
   ("las-vegas-raiders", "LV"), ("los-angeles-chargers", "LAC"),
   ("los-angeles-rams", "LAR"), ("miami-dolphins", "MIA"),
   ("minnesota-vikings", "MIN"), ("new-england-patriots", "NE"),
   ("new-orleans-saints", "NO"), ("new-york-giants", "NYG"),
   ("new-york-jets", "NYJ"), ("philadelphia-eagles", "PHI"),
   ("pittsburgh-steelers", "PIT"), ("san-francisco-49ers", "SF"),
   ("seattle-seahawks", "SEA"), ("tampa-bay-buccaneers", "TB"),
   ("tennessee-titans", "TEN"), ("washington-commanders", "WAS")]

/-! ## HTML model -/

/-- A table cell: its full text content and the texts of its `<a>`
descendants in document order (`find('a')` takes the head,
`find_all('a')` the whole list). -/
structure Cell where
  text : String
  anchors : List String
deriving DecidableEq

/-- A table: optional `id` attribute, class tokens, and rows, where each
row is its list of `<td>` cells (`find_all('td')`). Header rows carry
`<th>` cells only and therefore have an empty cell list here. -/
structure Table where
  idAttr : Option String
  classes : List String
  rows : List (List Cell)
deriving DecidableEq

/-- A fetched, parsed HTML page: its tables in document order. -/
structure Page where
  tables : List Table
deriving DecidableEq

namespace SpotracScraper

/-- Contract dataclass of `spotrac_scraper.py` (field order preserved). -/
structure Contract where
  player_name : String
  position : String
  age : Option Nat
  base_salary_2025 : Int
  cap_hit_2025 : Int
  total_value : Int
  years : Nat
  avg_salary : Int
  guaranteed : Int
  signing_bonus : Int
deriving DecidableEq

/-- The `TEAMS` dict of `SpotracScraper`. -/
def TEAMS : List (String × String) := nflTeamsTable

/-- Model of `SpotracScraper.parse_money` (lines 86-105): early return 0
for `""` / `"-"` / `"N/A"`; strip `$`, commas and whitespace; if the
uppercased cleaned string contains `M` remove every `M` and scale by
1,000,000; else if it contains `K` remove every `K` and scale by 1,000;
otherwise parse plain; any parse failure yields 0. -/
def parse_money (money_str : String) : Int :=
  if money_str = "" ∨ money_str = "-" ∨ money_str = "N/A" then 0
  else
    let cleaned := pyStripChars (removeAll (removeAll money_str.data '$') ',')
    let up := cleaned.map asciiUpper
    if 'M' ∈ up then moneyBranch (pyFloat (removeAll up 'M')) 1000000
    else if 'K' ∈ up then moneyBranch (pyFloat (removeAll up 'K')) 1000
    else moneyBranch (pyFloat cleaned) 1

/-- Model of `SpotracScraper.parse_age` (lines 107-114): `None` for empty
or `"-"`, else the first digit run found by `re.search(r"\d+", ...)`. -/
def parse_age (age_str : String) : Option Nat :=
  if age_str = "" ∨ age_str = "-" then none
  else
    let ds := (age_str.data.dropWhile (fun c => !c.isDigit)).takeWhile Char.isDigit
    if ds.isEmpty then none else some (digitsToNat ds)

/-- Name extraction shared by the two Spotrac row parsers: the stripped
text of the cell's first anchor if one exists, else the stripped cell
text (`name_elem.text.strip() if name_elem else cols[i].text.strip()`). -/
def cellName (c : Cell) : String :=
  match c.anchors.head? with
  | some a => pyStrip a
  | none => pyStrip c.text

/-- Model of the per-row body of `scrape_team_contracts` (lines 153-213):
skip rows with fewer than 4 cells or an empty / `"-"` name; otherwise
build a `Contract` from columns 0-3, 6, 7 and 9.  `int(base_salary * 0.5)`
is truncation toward zero, i.e. `Int.tdiv base_salary 2`. -/
def contractRow (cols : List Cell) : Option Contract :=
  match cols with
  | c0 :: c1 :: c2 :: c3 :: rest =>
    let player_name := cellName c0
    if player_name = "" ∨ player_name = "-" then none
    else
      let position := pyStrip c1.text
      let age := parse_age (pyStrip c2.text)
      let cap_hit := parse_money c3.text
      let base_salary := match rest.get? 2 with
        | some c => parse_money c.text
        | none => cap_hit
      let signing_bonus := match rest.get? 3 with
        | some c => parse_money c.text
        | none => 0
      let roster_bonus := match rest.get? 5 with
        | some c => parse_money c.text
        | none => 0
      let total_signing_bonus := signing_bonus + roster_bonus
      let years : Nat := 3
      let total_value := cap_hit * 3
      let avg_salary := cap_hit
      let guaranteed := total_signing_bonus + Int.tdiv base_salary 2
      some { player_name := player_name, position := position, age := age,
             base_salary_2025 := base_salary, cap_hit_2025 := cap_hit,
             total_value := if total_value > 0 then total_value else cap_hit,
             years := years, avg_salary := avg_salary,
             guaranteed := guaranteed, signing_bonus := total_signing_bonus }
  | _ => none

/-- The tables `scrape_team_contracts` collects: the first table with id
`table_active` and the first with id `table_injured`, in that order. -/
def contractTables (p : Page) : List Table :=
  ["table_active", "table_injured"].filterMap
    (fun tid => p.tables.find? (fun t => t.idAttr = some tid))

/-- Model of `SpotracScraper.scrape_team_contracts` (lines 116-227).
`none` stands for a fetch that raised (network error or the non-2xx
status raised by `raise_for_status`), which the handlers turn into `[]`.
With a page, the rows of the located tables (header row dropped from
each) are parsed, skipped rows contributing nothing. -/
def scrape_team_contracts (fetched : Option Page) : List Contract :=
  match fetched with
  | none => []
  | some p =>
    let tables := contractTables p
    if tables = [] then []
    else ((tables.map (fun t => t.rows.drop 1)).flatten).filterMap contractRow

/-- Model of `SpotracScraper.scrape_all_teams` (lines 229-260), results
only: one entry per `TEAMS` item, in order, holding that team's scrape
result.  The network is the oracle `fetch`. -/
def scrape_all_teams (fetch : String → Option Page) : List (String × List Contract) :=
  TEAMS.map (fun p => (p.1, scrape_team_contracts (fetch p.1)))

end SpotracScraper

/-! ## Batch timing traces -/

/-- Observable events of a batch run: one HTTP request per team, and the
rate-limit sleeps. -/
inductive Event where
  | fetch (slug : String)
  | sleep
deriving DecidableEq

/-- Trace of the Spotrac batch loops (`for idx, ... in enumerate(TEAMS, 1)`
with `if idx < 32: time.sleep(...)`), shared by `spotrac_scraper.py`
(lines 242-250) and `spotrac_roster_scraper.py` (lines 181-189); the loop
body's timing does not depend on the per-team results. -/
def spotracBatchTraceAux (idx : Nat) : List String → List Event
  | [] => []
  | t :: ts =>
    Event.fetch t :: ((if idx < 32 then [Event.sleep] else []) ++
      spotracBatchTraceAux (idx + 1) ts)

/-- Trace of `SpotracScraper.scrape_all_teams`. -/
def spotracContractsTrace : List Event :=
  spotracBatchTraceAux 1 (nflTeamsTable.map Prod.fst)

/-- Trace of `SpotracRosterScraper.scrape_all_teams`. -/
def spotracRosterTrace : List Event :=
  spotracBatchTraceAux 1 (nflTeamsTable.map Prod.fst)

namespace SpotracRosterScraper

/-- Player dataclass of `spotrac_roster_scraper.py`. -/
structure Player where
  player_name : String
  position : String
  age : Option Nat
deriving DecidableEq

/-- The `TEAMS` dict of `SpotracRosterScraper`. -/
def TEAMS : List (String × String) := nflTeamsTable

/-- Model of `SpotracRosterScraper.parse_age` (lines 80-87), identical to
the contract scraper's parser. -/
def parse_age (age_str : String) : Option Nat :=
  if age_str = "" ∨ age_str = "-" then none
  else
    let ds := (age_str.data.dropWhile (fun c => !c.isDigit)).takeWhile Char.isDigit
    if ds.isEmpty then none else some (digitsToNat ds)

/-- The age scan of lines 138-144: over the candidate cells `cols[3:6]`,
take the first parsed age that is truthy and within `18 <= age <= 50`,
otherwise move to the next candidate; `none` if no candidate qualifies. -/
def ageScan : List Cell → Option Nat
  | [] => none
  | c :: cs =>
    match parse_age (pyStrip c.text) with
    | some a => if a ≠ 0 ∧ 18 ≤ a ∧ a ≤ 50 then some a else ageScan cs
    | none => ageScan cs

/-- Model of the per-row body of `scrape_team_roster` (lines 120-156):
skip rows with fewer than 3 cells or an empty / `"-"` name; the age comes
from scanning `cols[3:6]`. -/
def rosterRow (cols : List Cell) : Option Player :=
  match cols with
  | _c0 :: c1 :: c2 :: rest =>
    let player_name := SpotracScraper.cellName c1
    if player_name = "" ∨ player_name = "-" then none
    else
      some { player_name := player_name, position := pyStrip c2.text,
             age := ageScan (rest.take 3) }
  | _ => none

/-- Model of `SpotracRosterScraper.scrape_team_roster` (lines 89-166):
a raised fetch gives `[]`; a missing `team-roster` table gives `[]`;
otherwise the table rows after the header are parsed. -/
def scrape_team_roster (fetched : Option Page) : List Player :=
  match fetched with
  | none => []
  | some p =>
    match p.tables.find? (fun t => "team-roster" ∈ t.classes) with
    | none => []
    | some table => (table.rows.drop 1).filterMap rosterRow

/-- Model of `SpotracRosterScraper.scrape_all_teams` (lines 168-199),
results only. -/
def scrape_all_teams (fetch : String → Option Page) : List (String × List Player) :=
  TEAMS.map (fun p => (p.1, scrape_team_roster (fetch p.1)))

end SpotracRosterScraper

/-! ## Madden scraper -/

/-- Model of Python `str.split()` with no argument: split on runs of
whitespace, discarding empty pieces.  `acc` holds the current word,
reversed. -/
def pyWordsAux (acc : List Char) : List Char → List String
  | [] => if acc.isEmpty then [] else [String.mk acc.reverse]
  | c :: cs =>
    if isPyWs c then
      if acc.isEmpty then pyWordsAux [] cs
      else String.mk acc.reverse :: pyWordsAux [] cs
    else pyWordsAux (c :: acc) cs

/-- Python `s.split()`. -/
def pyWords (s : String) : List String := pyWordsAux [] s.data

namespace MaddenScraperWorking

/-- Player dataclass of `madden_scraper.py`, defaults included
(Python `int` fields are modelled by `Int`). -/
structure Player where
  first_name : String
  last_name : String
  position : String
  age : Int := 25
  college : String := ""
  draft_year : Option Int := none
  draft_round : Option Int := none
  draft_pick : Option Int := none
  years_pro : Int := 0
  height : Option Int := none
  weight : Option Int := none
  photo_url : String := ""
  handedness : String := "right"
deriving DecidableEq

/-- PlayerAttributes dataclass of `madden_scraper.py`, defaults included. -/
structure PlayerAttributes where
  overall : Int := 70
  potential : Int := 75
  injury_prone : Int := 50
  morale : Int := 75
  confidence : Int := 75
  development_trait : String := "normal"
  speed : Int := 70
  strength : Int := 70
  stamina : Int := 80
  awareness : Int := 70
  accuracy : Option Int := none
  arm_strength : Option Int := none
  throw_power : Option Int := none
  pocket_presence : Option Int := none
  hands : Option Int := none
  route_running : Option Int := none
  catching : Option Int := none
  elusiveness : Option Int := none
  pass_block : Option Int := none
  run_block : Option Int := none
  pass_rush : Option Int := none
  run_stop : Option Int := none
  tackling : Option Int := none
  coverage : Option Int := none
  jumping : Option Int := none
  play_recognition : Option Int := none
  kick_power : Option Int := none
  kick_accuracy : Option Int := none
deriving DecidableEq

/-- The `TEAMS` dict of `MaddenScraperWorking`. -/
def TEAMS : List (String × String) := nflTeamsTable

/-- The `POSITION_MAP` dict (lines 91-98). -/
def POSITION_MAP : List (String × String) :=
  [("QB", "QB"), ("HB", "RB"), ("FB", "RB"), ("WR", "WR"), ("TE", "TE"),
   ("LT", "OL"), ("LG", "OL"), ("C", "OL"), ("RG", "OL"), ("RT", "OL"),
   ("LEDG", "DL"), ("REDG", "DL"), ("DT", "DL"),
   ("MIKE", "LB"), ("SAM", "LB"), ("WILL", "LB"),
   ("CB", "CB"), ("FS", "S"), ("SS", "S"),
   ("K", "K"), ("P", "P"), ("LS", "P")]

/-- Model of `MaddenScraperWorking._get_dev_trait` (lines 204-213). -/
def get_dev_trait (overall : Int) : String :=
  if overall ≥ 90 then "superstar"
  else if overall ≥ 80 then "star"
  else if overall ≥ 70 then "normal"
  else "slow"

/-- Model of `MaddenScraperWorking._create_player_objects` (lines 180-202):
split the name into first/last, remap the position, and synthesize
attributes with `potential = min(overall + 5, 99)` and the dev trait.
The overall scraped by the caller is a digit run, hence non-negative. -/
def create_player_objects (full_name madden_position : String) (overall : Int) :
    Player × PlayerAttributes :=
  let name_parts := pyWords (pyStrip full_name)
  let first_name := name_parts.headD "Unknown"
  let last_name :=
    if name_parts.length > 1 then String.intercalate " " name_parts.tail else ""
  let position := (List.lookup madden_position POSITION_MAP).getD madden_position
  ({ first_name := first_name, last_name := last_name, position := position },
   { overall := overall,
     potential := min (overall + 5) 99,
     development_trait := get_dev_trait overall })

/-- Model of the per-row body of `scrape_team_roster` (lines 127-171):
rows need at least 3 cells and at least 3 anchors in cell 1; the name is
anchor 1, the position anchor 2, the overall the first digit run of
cell 2's text (default 70).  There is no name check: every such row
produces a record. -/
def maddenRow (cells : List Cell) : Option (Player × PlayerAttributes) :=
  match cells with
  | _c0 :: c1 :: c2 :: _ =>
    match c1.anchors with
    | _l0 :: l1 :: l2 :: _ =>
      let full_name := pyStrip l1
      let madden_position := pyStrip l2
      let overall_text := pyStrip c2.text
      let ds := (overall_text.data.dropWhile (fun c => !c.isDigit)).takeWhile Char.isDigit
      let overall : Int := if ds.isEmpty then 70 else (digitsToNat ds : Int)
      some (create_player_objects full_name madden_position overall)
    | _ => none
  | _ => none

/-- Model of `MaddenScraperWorking.scrape_team_roster` (lines 107-178):
a raised fetch gives `[]`; the first table of the page is used (no table
gives `[]`); all its rows are scanned (header rows fail the cell-count
check); each parsed row is tagged with the team abbreviation. -/
def scrape_team_roster (team_slug : String) (fetched : Option Page) :
    List (Player × PlayerAttributes × String) :=
  match fetched with
  | none => []
  | some p =>
    let team_abbr := (List.lookup team_slug TEAMS).getD "UNK"
    match p.tables.head? with
    | none => []
    | some table =>
      (table.rows.filterMap maddenRow).map (fun pa => (pa.1, pa.2, team_abbr))

/-- The team list actually iterated by `scrape_all_teams(limit)`:
`teams[:limit]` when `limit` is truthy (`if limit:`), so `None` and `0`
both mean the full list. -/
def maddenTeamsList (limit : Option Nat) : List String :=
  let ts := (TEAMS).map Prod.fst
  match limit with
  | none => ts
  | some n => if n = 0 then ts else ts.take n

/-- Results of `MaddenScraperWorking.scrape_all_teams` (lines 215-236):
per-team results concatenated in order. -/
def scrape_all_teams (fetch : String → Option Page) (limit : Option Nat) :
    List (Player × PlayerAttributes × String) :=
  ((maddenTeamsList limit).map (fun t => scrape_team_roster t (fetch t))).flatten

/-- Trace of `MaddenScraperWorking.scrape_all_teams` over a team list:
each iteration fetches, then sleeps only when that team yielded at least
one record (`if players: time.sleep(...)`). -/
def maddenBatchTrace (fetch : String → Option Page) : List String → List Event
  | [] => []
  | t :: ts =>
    Event.fetch t ::
      (if (scrape_team_roster t (fetch t)).isEmpty then maddenBatchTrace fetch ts
       else Event.sleep :: maddenBatchTrace fetch ts)

/-- Trace of a full `scrape_all_teams` call. -/
def maddenAllTrace (fetch : String → Option Page) (limit : Option Nat) : List Event :=
  maddenBatchTrace fetch (maddenTeamsList limit)

end MaddenScraperWorking

/-! ## JSON serialization (model of `json.dump(..., indent=2)`) -/

/-- Scalar JSON values appearing in the exported records. -/
inductive JVal where
  | jstr (s : String)
  | jnum (n : Int)
  | jnull
deriving DecidableEq

/-- JSON string escaping for the characters exercised by the data
(backslash and double quote). -/
def escChar (c : Char) : List Char :=
  if c = '\\' then ['\\', '\\'] else if c = '"' then ['\\', '"'] else [c]

/-- Escape a string for a JSON string literal. -/
def jsonEscape (s : String) : String := String.mk ((s.data.map escChar).flatten)

/-- A JSON string literal. -/
def jquote (s : String) : String := "\"" ++ jsonEscape s ++ "\""

/-- Serialize a scalar value. -/
def renderJVal : JVal → String
  | .jstr s => jquote s
  | .jnum n => toString n
  | .jnull => "null"

/-- Serialize a flat JSON object whose fields sit on lines prefixed by
`innerPad`, with the closing brace prefixed by `closePad`, exactly as
`json.dump(..., indent=2)` lays nested dicts out; keys keep insertion
order. -/
def renderObjAt (closePad innerPad : String) : List (String × JVal) → String
  | [] => "\x7b\x7d"
  | fs =>
    "\x7b\n" ++
      String.intercalate ",\n"
        (fs.map (fun f => innerPad ++ jquote f.1 ++ ": " ++ renderJVal f.2)) ++
      "\n" ++ closePad ++ "\x7d"

/-- Serialize a top-level JSON array of flat objects with `indent=2`. -/
def renderTopArray : List (List (String × JVal)) → String
  | [] => "[]"
  | objs =>
    "[\n" ++
      String.intercalate ",\n"
        (objs.map (fun o => "  " ++ renderObjAt "  " "    " o)) ++
      "\n]"

/-- Serialize an array of flat objects nested at depth `pad` (closing
bracket at `pad`, elements at `inner`). -/
def renderNestedArray (pad inner : String) : List (List (String × JVal)) → String
  | [] => "[]"
  | objs =>
    "[\n" ++
      String.intercalate ",\n"
        (objs.map (fun o => inner ++ renderObjAt inner (inner ++ "  ") o)) ++
      "\n" ++ pad ++ "]"

/-- Optional integer as a JSON value (`None` serializes to `null`). -/
def optIntJ : Option Int → JVal
  | none => .jnull
  | some n => .jnum n

/-- Optional natural as a JSON value. -/
def optNatJ : Option Nat → JVal
  | none => .jnull
  | some n => .jnum n

/-! ## File-system model -/

/-- A directory of files: path to contents. -/
def FS : Type := String → Option String

/-- The empty directory. -/
def emptyFS : FS := fun _ => none

/-- Model of `open(path, "w")` followed by a full write: overwrite. -/
def writeFile (fs : FS) (path content : String) : FS :=
  fun q => if q = path then some content else fs q

/-- Apply a sequence of writes in order. -/
def applyWrites : List (String × String) → FS → FS
  | [], fs => fs
  | (p, c) :: ws, fs => applyWrites ws (writeFile fs p c)

namespace SpotracRosterScraper

/-- Fields of one exported roster player, in `asdict` order. -/
def playerFields (p : Player) : List (String × JVal) :=
  [("player_name", .jstr p.player_name), ("position", .jstr p.position),
   ("age", optNatJ p.age)]

/-- Contents of one per-team roster JSON file (lines 217-228): the
`output_data` dict serialized with `indent=2`, keys in insertion order. -/
def rosterTeamJson (team_slug team_abbr : String) (players : List Player) : String :=
  "\x7b\n  \"team_slug\": " ++ jquote team_slug ++
  ",\n  \"team_abbr\": " ++ jquote team_abbr ++
  ",\n  \"player_count\": " ++ toString players.length ++
  ",\n  \"players\": " ++ renderNestedArray "  " "    " (players.map playerFields) ++
  "\n\x7d"

/-- The inner `teams` object of the summary file. -/
def summaryTeamsObj : List (String × String × Nat) → String
  | [] => "\x7b\x7d"
  | es =>
    "\x7b\n" ++
      String.intercalate ",\n"
        (es.map (fun e =>
          "    " ++ jquote e.1 ++ ": " ++
            renderObjAt "    " "      "
              [("abbr", .jstr e.2.1), ("player_count", .jnum e.2.2)])) ++
      "\n  \x7d"

/-- Contents of `_summary.json` (lines 232-247). -/
def rosterSummaryJson (entries : List (String × String × Nat))
    (total_teams total_players : Nat) : String :=
  "\x7b\n  \"total_teams\": " ++ toString total_teams ++
  ",\n  \"total_players\": " ++ toString total_players ++
  ",\n  \"teams\": " ++ summaryTeamsObj entries ++ "\n\x7d"

/-- The per-team file writes of the export loop (lines 214-230), in
iteration order; `TEAMS[team_slug]` raises `KeyError` on an unknown slug,
modelled by `none` (the claims concern successful exports). -/
def teamFileWrites (output_dir : String) :
    List (String × List Player) → Option (List (String × String))
  | [] => some []
  | (team_slug, players) :: rest =>
    match List.lookup team_slug TEAMS, teamFileWrites output_dir rest with
    | some team_abbr, some ws =>
      some ((output_dir ++ "/" ++ team_abbr.toLower ++ ".json",
             rosterTeamJson team_slug team_abbr players) :: ws)
    | _, _ => none

/-- The summary entries built by the dict comprehension of lines 236-242. -/
def summaryEntries : List (String × List Player) → Option (List (String × String × Nat))
  | [] => some []
  | (team_slug, players) :: rest =>
    match List.lookup team_slug TEAMS, summaryEntries rest with
    | some abbr, some es => some ((team_slug, abbr, players.length) :: es)
    | _, _ => none

/-- Model of `SpotracRosterScraper.export_to_json` (lines 201-249): write
one file per team in iteration order, then the summary file.  The
contents depend only on the dataset, never on the previous state of the
directory. -/
def export_to_json (players_by_team : List (String × List Player))
    (output_dir : String) (fs : FS) : Option FS :=
  match teamFileWrites output_dir players_by_team, summaryEntries players_by_team with
  | some ws, some es =>
    some (applyWrites
      (ws ++ [(output_dir ++ "/_summary.json",
               rosterSummaryJson es players_by_team.length
                 ((players_by_team.map (fun x => x.2.length)).sum))]) fs)
  | _, _ => none

end SpotracRosterScraper

/-! ## Madden exporter -/

/-- Little-endian base-10 digits via fuel (structural, so that concrete
values reduce in the kernel); `natDigitsLEFuel n n` is exact for `n`. -/
def natDigitsLEFuel : Nat → Nat → List Nat
  | 0, _ => []
  | _ + 1, 0 => []
  | f + 1, n + 1 => ((n + 1) % 10) :: natDigitsLEFuel f ((n + 1) / 10)

/-- Little-endian base-10 digits of `n` (empty for 0). -/
def natDigitsLE (n : Nat) : List Nat := natDigitsLEFuel n n

/-- The ASCII digit character for `d < 10`. -/
def digitChar10 (d : Nat) : Char := Char.ofNat (48 + d)

/-- Decimal string of `n` as characters, most significant first; empty
for 0, which the 4-wide zero padding below turns into `"0000"` exactly
as Python's `f"{0:04d}"` does. -/
def natStrChars (n : Nat) : List Char := ((natDigitsLE n).map digitChar10).reverse

/-- Zero padding to width 4, modelling the format spec `04d`. -/
def padZeros4 (cs : List Char) : List Char := List.replicate (4 - cs.length) '0' ++ cs

namespace MaddenScraperWorking

/-- Model of the f-string `f"player_\x7bidx:04d\x7d"` of line 249. -/
def player_id_str (idx : Nat) : String :=
  String.mk ("player_".data ++ padZeros4 (natStrChars idx))

/-- One record of `players_json`: the player dict with `id` and `team`
appended (lines 251-253). -/
structure PlayerOut where
  player : Player
  id : String
  team : String
deriving DecidableEq

/-- One record of `attributes_json`: the attribute dict with `player_id`
appended (lines 255-256). -/
structure AttrOut where
  attributes : PlayerAttributes
  player_id : String
deriving DecidableEq

/-- The two record lists built by the enumerate loop of lines 245-259. -/
def exportRecords (players_data : List (Player × PlayerAttributes × String)) :
    List PlayerOut × List AttrOut :=
  (players_data.enum.map (fun e =>
     { player := e.2.1, id := player_id_str e.1, team := e.2.2.2 }),
   players_data.enum.map (fun e =>
     { attributes := e.2.2.1, player_id := player_id_str e.1 }))

/-- Fields of one `players.json` record: `asdict(player)` order, then the
appended `id` and `team` keys. -/
def playerOutFields (po : PlayerOut) : List (String × JVal) :=
  [("first_name", .jstr po.player.first_name),
   ("last_name", .jstr po.player.last_name),
   ("position", .jstr po.player.position),
   ("age", .jnum po.player.age),
   ("college", .jstr po.player.college),
   ("draft_year", optIntJ po.player.draft_year),
   ("draft_round", optIntJ po.player.draft_round),
   ("draft_pick", optIntJ po.player.draft_pick),
   ("years_pro", .jnum po.player.years_pro),
   ("height", optIntJ po.player.height),
   ("weight", optIntJ po.player.weight),
   ("photo_url", .jstr po.player.photo_url),
   ("handedness", .jstr po.player.handedness),
   ("id", .jstr po.id),
   ("team", .jstr po.team)]

/-- Fields of one `player_attributes.json` record. -/
def attrOutFields (ao : AttrOut) : List (String × JVal) :=
  [("overall", .jnum ao.attributes.overall),
   ("potential", .jnum ao.attributes.potential),
   ("injury_prone", .jnum ao.attributes.injury_prone),
   ("morale", .jnum ao.attributes.morale),
   ("confidence", .jnum ao.attributes.confidence),
   ("development_trait", .jstr ao.attributes.development_trait),
   ("speed", .jnum ao.attributes.speed),
   ("strength", .jnum ao.attributes.strength),
   ("stamina", .jnum ao.attributes.stamina),
   ("awareness", .jnum ao.attributes.awareness),
   ("accuracy", optIntJ ao.attributes.accuracy),
   ("arm_strength", optIntJ ao.attributes.arm_strength),
   ("throw_power", optIntJ ao.attributes.throw_power),
   ("pocket_presence", optIntJ ao.attributes.pocket_presence),
   ("hands", optIntJ ao.attributes.hands),
   ("route_running", optIntJ ao.attributes.route_running),
   ("catching", optIntJ ao.attributes.catching),
   ("elusiveness", optIntJ ao.attributes.elusiveness),
   ("pass_block", optIntJ ao.attributes.pass_block),
   ("run_block", optIntJ ao.attributes.run_block),
   ("pass_rush", optIntJ ao.attributes.pass_rush),
   ("run_stop", optIntJ ao.attributes.run_stop),
   ("tackling", optIntJ ao.attributes.tackling),
   ("coverage", optIntJ ao.attributes.coverage),
   ("jumping", optIntJ ao.attributes.jumping),
   ("play_recognition", optIntJ ao.attributes.play_recognition),
   ("kick_power", optIntJ ao.attributes.kick_power),
   ("kick_accuracy", optIntJ ao.attributes.kick_accuracy),
   ("player_id", .jstr ao.player_id)]

/-- Model of `MaddenScraperWorking.export_to_json` (lines 238-283): two
flat files, `players.json` then `player_attributes.json`, written in that
order; contents are a function of the dataset alone. -/
def export_to_json (players_data : List (Player × PlayerAttributes × String))
    (output_dir : String) (fs : FS) : FS :=
  applyWrites
    [(output_dir ++ "/players.json",
      renderTopArray ((exportRecords players_data).1.map playerOutFields)),
     (output_dir ++ "/player_attributes.json",
      renderTopArray ((exportRecords players_data).2.map attrOutFields))] fs

end MaddenScraperWorking

/-! ## Definitions taken from the spec's words (for refinement claims) -/

/-- Formalisation of the spec sentence behind claim C3, read literally:
scale only when the cleaned string ends with an `M` / `K` suffix
(case-insensitive), dropping that one suffix character; otherwise parse
plain; 0 on any failure. -/
def specParseMoneySuffix (s : String) : Int :=
  let cleaned := pyStripChars (removeAll (removeAll s.data '$') ',')
  match cleaned.getLast? with
  | some c =>
    if c = 'M' ∨ c = 'm' then moneyBranch (pyFloat cleaned.dropLast) 1000000
    else if c = 'K' ∨ c = 'k' then moneyBranch (pyFloat cleaned.dropLast) 1000
    else moneyBranch (pyFloat cleaned) 1
  | none => moneyBranch (pyFloat cleaned) 1

/-- Formalisation of the amended description of the money parser: after
the `""` / `"-"` / `"N/A"` early return and the `$` / comma / whitespace
cleanup, scale by 1,000,000 when the uppercased cleaned string contains
an `M` anywhere (all occurrences removed before the numeric parse), else
by 1,000 when it contains a `K`, else parse the cleaned string plain; 0
on any parse failure. -/
def specParseMoneyContains (s : String) : Int :=
  if s = "" ∨ s = "-" ∨ s = "N/A" then 0
  else
    let cleaned := pyStripChars (removeAll (removeAll s.data '$') ',')
    let up := cleaned.map asciiUpper
    let st : Nat × List Char :=
      if 'M' ∈ up then (1000000, removeAll up 'M')
      else if 'K' ∈ up then (1000, removeAll up 'K')
      else (1, cleaned)
    moneyBranch (pyFloat st.2) st.1

/-- Formalisation of the spec's timing sentence for claim C8: one fetch
per team with exactly one sleep between consecutive fetches and none
after the last. -/
def sepBySleep : List String → List Event
  | [] => []
  | [t] => [Event.fetch t]
  | t :: ts => Event.fetch t :: Event.sleep :: sepBySleep ts

/-- Formalisation of the amended timing description of the Madden batch:
per team, a fetch followed by one sleep exactly when that team yielded at
least one record. -/
def maddenSleepBlocks (fetch : String → Option Page) (teams : List String) : List Event :=
  (teams.map (fun t =>
    Event.fetch t ::
      (if (MaddenScraperWorking.scrape_team_roster t (fetch t)).isEmpty then []
       else [Event.sleep]))).flatten

/-! ## Concrete inputs for counterexamples and witnesses -/

/-- A contract row whose cap-hit cell reads `-3`: four cells, so the base
salary falls back to the cap hit. -/
def c1Row : List Cell :=
  [⟨"", ["John Doe"]⟩, ⟨"QB", []⟩, ⟨"28", []⟩, ⟨"-3", []⟩]

/-- A well-formed ten-cell contract row: cap hit `$2`, base `$5`,
signing-bonus proration `$1`, roster bonus `$1`. -/
def c1WitnessRow : List Cell :=
  [⟨"", ["John Doe"]⟩, ⟨"QB", []⟩, ⟨"28", []⟩, ⟨"$2", []⟩, ⟨"", []⟩,
   ⟨"", []⟩, ⟨"$5", []⟩, ⟨"$1", []⟩, ⟨"", []⟩, ⟨"$1", []⟩]

/-- The contract produced from `c1WitnessRow`. -/
def c1WitnessContract : SpotracScraper.Contract :=
  { player_name := "John Doe", position := "QB", age := some 28,
    base_salary_2025 := 5, cap_hit_2025 := 2, total_value := 6, years := 3,
    avg_salary := 2, guaranteed := 4, signing_bonus := 2 }

/-- A contract row whose age cell reads `99`. -/
def c5Row : List Cell :=
  [⟨"", ["John Doe"]⟩, ⟨"QB", []⟩, ⟨"99", []⟩, ⟨"$1", []⟩]

/-- A roster row whose first age candidate (`99`) is out of range and
whose second (`28`) is accepted. -/
def c5WitnessRow : List Cell :=
  [⟨"", []⟩, ⟨"", ["John Doe"]⟩, ⟨"QB", []⟩, ⟨"99", []⟩, ⟨"28", []⟩]

/-- The roster player produced from `c5WitnessRow`. -/
def c5WitnessPlayer : SpotracRosterScraper.Player :=
  { player_name := "John Doe", position := "QB", age := some 28 }

/-- A network oracle on which every request raises. -/
def noFetch : String → Option Page := fun _ => none

/-- A page with no tables at all. -/
def emptyPage : Page := ⟨[]⟩

/-- A Madden roster row whose name anchor reads `"-"`. -/
def c7Row : List Cell :=
  [⟨"", []⟩, ⟨"", ["", "-", "QB"]⟩, ⟨"88", []⟩]

/-- First name of the record a Madden row produces, if any. -/
def maddenRowName (cells : List Cell) : Option String :=
  (MaddenScraperWorking.maddenRow cells).map (fun pa => pa.1.first_name)

/-- A contracts row with a well-formed name, for the C7 witness. -/
def c7ContractRow : List Cell :=
  [⟨"", ["Jane Roe"]⟩, ⟨"WR", []⟩, ⟨"30", []⟩, ⟨"$1", []⟩]

/-- A roster row with a well-formed name, for the C7 witness. -/
def c7RosterRow : List Cell :=
  [⟨"", []⟩, ⟨"", ["Jane Roe"]⟩, ⟨"WR", []⟩, ⟨"30", []⟩]

/-- A well-formed Madden roster row yielding one record. -/
def c8Row : List Cell :=
  [⟨"", []⟩, ⟨"x", ["", "John Smith", "QB", "arch"]⟩, ⟨"99", []⟩]

/-- A page whose first table holds exactly `c8Row`. -/
def c8Page : Page := ⟨[⟨none, [], [c8Row]⟩]⟩

/-- A network oracle on which only the last team's page loads (and it
yields one record); every other request raises. -/
def c8Fetch : String → Option Page :=
  fun s => if s = "washington-commanders" then some c8Page else none

/-- The directory state after exporting the empty roster dataset into
directory `"d"` from an empty directory. -/
def c9FS : FS :=
  (SpotracRosterScraper.export_to_json [] "d" emptyFS).getD emptyFS

/-- The roster player produced from `c7RosterRow`. -/
def c7RosterPlayer : SpotracRosterScraper.Player :=
  { player_name := "Jane Roe", position := "WR", age := some 30 }

/-- The contract produced from `c7ContractRow`. -/
def c7Contract : SpotracScraper.Contract :=
  { player_name := "Jane Roe", position := "WR", age := some 30,
    base_salary_2025 := 1, cap_hit_2025 := 1, total_value := 3, years := 3,
    avg_salary := 1, guaranteed := 0, signing_bonus := 0 }

/-! ## Auxiliary functions for the proofs -/

/-- Content of the last write to `q` in a write sequence, if any. -/
def lastContent (q : String) : List (String × String) → Option String
  | [] => none
  | (p, c) :: ws =>
    match lastContent q ws with
    | some c' => some c'
    | none => if q = p then some c else none

/-- Value of a little-endian digit list. -/
def digitsLEVal : List Nat → Nat
  | [] => 0
  | d :: ds => d + 10 * digitsLEVal ds

/-- Value of a big-endian decimal character string (digit characters). -/
def charsBEVal (cs : List Char) : Nat :=
  digitsLEVal ((cs.map (fun c => c.toNat - 48)).reverse)

/-! ## Helper lemmas -/

/-- The roster age scan only ever stores ages within `[18, 50]`. -/
theorem ageScan_bounds :
    ∀ (cs : List Cell) (a : Nat),
      SpotracRosterScraper.ageScan cs = some a → 18 ≤ a ∧ a ≤ 50 := by
  intro cs
  induction cs with
  | nil => intro a h; simp [SpotracRosterScraper.ageScan] at h
  | cons c cs ih =>
    intro a h
    simp only [SpotracRosterScraper.ageScan] at h
    split at h
    · split_ifs at h with hb
      · obtain rfl := Option.some.inj h
        exact ⟨hb.2.1, hb.2.2⟩
      · exact ih a h
    · exact ih a h

/-! ## Claim theorems -/

/-- C2 (confirmed): the money parser satisfies exactly the six specified
input/output pairs. -/
theorem C2_parse_money_pairs :
    SpotracScraper.parse_money "$1,234,567" = 1234567 ∧
    SpotracScraper.parse_money "3.5M" = 3500000 ∧
    SpotracScraper.parse_money "500K" = 500000 ∧
    SpotracScraper.parse_money "-" = 0 ∧
    SpotracScraper.parse_money "" = 0 ∧
    SpotracScraper.parse_money "N/A" = 0 := by decide

/-- C3 (counterexample): on `"3M3"` the parser scales by 1,000,000 even
though the cleaned string does not end with an `M` suffix, so the
suffix-based description of the claim disagrees with the code. -/
theorem C3_counterexample :
    SpotracScraper.parse_money "3M3" = 33000000 ∧
    specParseMoneySuffix "3M3" = 0 ∧
    SpotracScraper.parse_money "3M3" ≠ specParseMoneySuffix "3M3" := by decide

/-- C3 (amended): for every input string the parser behaves as the
amended, containment-based description: strip `$` / commas / whitespace,
scale by 1,000,000 when the cleaned string contains an `M` (all
occurrences removed, case-insensitive), else by 1,000 for `K`, else parse
plain, returning 0 on any failure (and on `""`, `"-"`, `"N/A"`). -/
theorem C3_amended_contains (s : String) :
    SpotracScraper.parse_money s = specParseMoneyContains s := by
  unfold SpotracScraper.parse_money specParseMoneyContains
  dsimp only
  split_ifs <;> rfl

/-- C4 (confirmed): for every integer overall rating the attribute
synthesizer produces `potential = min(overall + 5, 99)` and the
development trait determined by the inclusive lower bounds 90 / 80 / 70,
with 95, 85, 72, 50 in the four tiers and 90, 80, 70 in the tier they
bound. -/
theorem C4_dev_trait_and_potential : ∀ (fn pos : String) (o : Int),
    (MaddenScraperWorking.create_player_objects fn pos o).2.potential = min (o + 5) 99 ∧
    (MaddenScraperWorking.create_player_objects fn pos o).2.development_trait =
      MaddenScraperWorking.get_dev_trait o ∧
    (MaddenScraperWorking.get_dev_trait o = "superstar" ↔ 90 ≤ o) ∧
    (MaddenScraperWorking.get_dev_trait o = "star" ↔ 80 ≤ o ∧ o < 90) ∧
    (MaddenScraperWorking.get_dev_trait o = "normal" ↔ 70 ≤ o ∧ o < 80) ∧
    (MaddenScraperWorking.get_dev_trait o = "slow" ↔ o < 70) ∧
    MaddenScraperWorking.get_dev_trait 95 = "superstar" ∧
    MaddenScraperWorking.get_dev_trait 85 = "star" ∧
    MaddenScraperWorking.get_dev_trait 72 = "normal" ∧
    MaddenScraperWorking.get_dev_trait 50 = "slow" ∧
    MaddenScraperWorking.get_dev_trait 90 = "superstar" ∧
    MaddenScraperWorking.get_dev_trait 80 = "star" ∧
    MaddenScraperWorking.get_dev_trait 70 = "normal" := by
  intro fn pos o
  refine ⟨rfl, rfl, ?_, ?_, ?_, ?_, by decide, by decide, by decide, by decide,
    by decide, by decide, by decide⟩
  · unfold MaddenScraperWorking.get_dev_trait
    split_ifs with h1 h2 h3
    · exact iff_of_true rfl h1
    · exact iff_of_false (by decide) h1
    · exact iff_of_false (by decide) h1
    · exact iff_of_false (by decide) h1
  · unfold MaddenScraperWorking.get_dev_trait
    split_ifs with h1 h2 h3
    · exact iff_of_false (by decide) (by omega)
    · exact iff_of_true rfl ⟨h2, by omega⟩
    · exact iff_of_false (by decide) (by omega)
    · exact iff_of_false (by decide) (by omega)
  · unfold MaddenScraperWorking.get_dev_trait
    split_ifs with h1 h2 h3
    · exact iff_of_false (by decide) (by omega)
    · exact iff_of_false (by decide) (by omega)
    · exact iff_of_true rfl ⟨h3, by omega⟩
    · exact iff_of_false (by decide) (by omega)
  · unfold MaddenScraperWorking.get_dev_trait
    split_ifs with h1 h2 h3
    · exact iff_of_false (by decide) (by omega)
    · exact iff_of_false (by decide) (by omega)
    · exact iff_of_false (by decide) (by omega)
    · exact iff_of_true rfl (by omega)

/-- C1 (counterexample): a parsed contract row with cap-hit cell `-3`
(four cells, so the base salary falls back to the cap hit) yields
`total_value = -3` although `cap_hit * 3 = -9`, and
`guaranteed - signing_bonus = -1` although half the base salary is
`-1.5`; so neither equation of the claim holds for all row-derived
integer values. -/
theorem C1_counterexample :
    Option.map SpotracScraper.Contract.total_value (SpotracScraper.contractRow c1Row) =
      some (-3) ∧
    Option.map SpotracScraper.Contract.cap_hit_2025 (SpotracScraper.contractRow c1Row) =
      some (-3) ∧
    ¬ ((-3 : Int) = (-3) * 3) ∧
    Option.map SpotracScraper.Contract.guaranteed (SpotracScraper.contractRow c1Row) =
      some (-1) ∧
    Option.map SpotracScraper.Contract.signing_bonus (SpotracScraper.contractRow c1Row) =
      some 0 ∧
    Option.map SpotracScraper.Contract.base_salary_2025 (SpotracScraper.contractRow c1Row) =
      some (-3) ∧
    ¬ (2 * ((-1 : Int) - 0) = -3) := by decide

/-- C1 (amended): every contract built by the row parser satisfies
`total_value = cap_hit * 3` whenever the cap hit is non-negative (the
code falls back to the bare cap hit when `cap_hit * 3 ≤ 0`), and
`guaranteed = signing_bonus + base_salary / 2` with the division
truncated toward zero (the effect of `int(base_salary * 0.5)`). -/
theorem C1_amended : ∀ (cols : List Cell) (c : SpotracScraper.Contract),
    SpotracScraper.contractRow cols = some c →
    (0 ≤ c.cap_hit_2025 → c.total_value = c.cap_hit_2025 * 3) ∧
    (c.cap_hit_2025 < 0 → c.total_value = c.cap_hit_2025) ∧
    c.guaranteed = c.signing_bonus + Int.tdiv c.base_salary_2025 2 := by
  intro cols c h
  match cols with
  | [] => simp [SpotracScraper.contractRow] at h
  | [c0] => simp [SpotracScraper.contractRow] at h
  | [c0, c1] => simp [SpotracScraper.contractRow] at h
  | [c0, c1, c2] => simp [SpotracScraper.contractRow] at h
  | c0 :: c1 :: c2 :: c3 :: rest =>
    simp only [SpotracScraper.contractRow] at h
    split_ifs at h
    · obtain rfl := Option.some.inj h
      dsimp only
      exact ⟨fun _ => rfl, fun hk => by omega, rfl⟩
    · obtain rfl := Option.some.inj h
      dsimp only
      exact ⟨fun hk => by omega, fun _ => rfl, rfl⟩

/-- C1 (witness): the amended theorem applied to a concrete ten-cell row
with cap hit 2, base salary 5 and bonuses 1 + 1. -/
theorem C1_amended_witness :
    SpotracScraper.contractRow c1WitnessRow = some c1WitnessContract ∧
    c1WitnessContract.total_value = c1WitnessContract.cap_hit_2025 * 3 ∧
    c1WitnessContract.guaranteed =
      c1WitnessContract.signing_bonus + Int.tdiv c1WitnessContract.base_salary_2025 2 :=
  ⟨by decide,
   (C1_amended c1WitnessRow c1WitnessContract (by decide)).1 (by decide),
   (C1_amended c1WitnessRow c1WitnessContract (by decide)).2.2⟩

/-- C5 (counterexample): the contracts pipeline stores a parsed age of
99, outside `[18, 50]`, in its output record: cell 2 is parsed by
`parse_age` with no range check. -/
theorem C5_counterexample :
    Option.map SpotracScraper.Contract.age (SpotracScraper.contractRow c5Row) =
      some (some 99) ∧
    ¬ (99 ≤ 50) := by decide

/-- C5 (amended): in the roster pipeline every stored age lies within
`[18, 50]`, and an out-of-range candidate cell is skipped in favour of
the remaining candidates; the contracts pipeline performs no such
check. -/
theorem C5_amended :
    (∀ (cols : List Cell) (p : SpotracRosterScraper.Player) (a : Nat),
       SpotracRosterScraper.rosterRow cols = some p → p.age = some a →
       18 ≤ a ∧ a ≤ 50) ∧
    (∀ (c : Cell) (cs : List Cell) (a : Nat),
       SpotracRosterScraper.parse_age (pyStrip c.text) = some a →
       ¬ (18 ≤ a ∧ a ≤ 50) →
       SpotracRosterScraper.ageScan (c :: cs) = SpotracRosterScraper.ageScan cs) := by
  constructor
  · intro cols p a h ha
    match cols with
    | [] => simp [SpotracRosterScraper.rosterRow] at h
    | [c0] => simp [SpotracRosterScraper.rosterRow] at h
    | [c0, c1] => simp [SpotracRosterScraper.rosterRow] at h
    | c0 :: c1 :: c2 :: rest =>
      simp only [SpotracRosterScraper.rosterRow] at h
      split_ifs at h
      obtain rfl := Option.some.inj h
      exact ageScan_bounds (rest.take 3) a ha
  · intro c cs a hp hout
    simp only [SpotracRosterScraper.ageScan, hp]
    split_ifs with hb
    · exact absurd ⟨hb.2.1, hb.2.2⟩ hout
    · rfl

/-- C5 (witness): the amended theorem applied to a concrete roster row
whose first age candidate 99 is rejected and whose second candidate 28
is stored. -/
theorem C5_amended_witness :
    SpotracRosterScraper.rosterRow c5WitnessRow = some c5WitnessPlayer ∧
    c5WitnessPlayer.age = some 28 ∧
    (18 ≤ 28 ∧ 28 ≤ 50) ∧
    SpotracRosterScraper.ageScan [⟨"99", []⟩, ⟨"28", []⟩] =
      SpotracRosterScraper.ageScan [⟨"28", []⟩] :=
  ⟨by decide, by decide,
   C5_amended.1 c5WitnessRow c5WitnessPlayer 28 (by decide) (by decide),
   C5_amended.2 ⟨"99", []⟩ [⟨"28", []⟩] 99 (by decide) (by decide)⟩

/-- C6 (confirmed): a raised fetch (network error or non-2xx status) or
a page without a matching table makes the per-team scrape return the
empty list, and the batch over all teams still produces an entry for
every team, with zero records for the failed ones. -/
theorem C6_error_handling :
    SpotracScraper.scrape_team_contracts none = [] ∧
    SpotracRosterScraper.scrape_team_roster none = [] ∧
    (∀ p : Page, SpotracScraper.contractTables p = [] →
       SpotracScraper.scrape_team_contracts (some p) = []) ∧
    (∀ p : Page, p.tables.find? (fun t => "team-roster" ∈ t.classes) = none →
       SpotracRosterScraper.scrape_team_roster (some p) = []) ∧
    (∀ fetch : String → Option Page,
       (SpotracScraper.scrape_all_teams fetch).map Prod.fst =
         SpotracScraper.TEAMS.map Prod.fst) ∧
    (∀ fetch : String → Option Page,
       (SpotracRosterScraper.scrape_all_teams fetch).map Prod.fst =
         SpotracRosterScraper.TEAMS.map Prod.fst) ∧
    (∀ (fetch : String → Option Page) (slug : String),
       slug ∈ SpotracScraper.TEAMS.map Prod.fst →
       SpotracScraper.scrape_team_contracts (fetch slug) = [] →
       (slug, ([] : List SpotracScraper.Contract)) ∈
         SpotracScraper.scrape_all_teams fetch) ∧
    (∀ (fetch : String → Option Page) (slug : String),
       slug ∈ SpotracRosterScraper.TEAMS.map Prod.fst →
       SpotracRosterScraper.scrape_team_roster (fetch slug) = [] →
       (slug, ([] : List SpotracRosterScraper.Player)) ∈
         SpotracRosterScraper.scrape_all_teams fetch) := by
  refine ⟨rfl, rfl, ?_, ?_, ?_, ?_, ?_, ?_⟩
  · intro p h
    simp [SpotracScraper.scrape_team_contracts, h]
  · intro p h
    simp [SpotracRosterScraper.scrape_team_roster, h]
  · intro fetch
    simp [SpotracScraper.scrape_all_teams, List.map_map, Function.comp]
  · intro fetch
    simp [SpotracRosterScraper.scrape_all_teams, List.map_map, Function.comp]
  · intro fetch slug hmem hempty
    rcases List.mem_map.mp hmem with ⟨pr, hpr, rfl⟩
    refine List.mem_map.mpr ⟨pr, hpr, ?_⟩
    simp [hempty]
  · intro fetch slug hmem hempty
    rcases List.mem_map.mp hmem with ⟨pr, hpr, rfl⟩
    refine List.mem_map.mpr ⟨pr, hpr, ?_⟩
    simp [hempty]

/-- C6 (witness): the theorem applied to an always-raising network
oracle, an empty page, and the first team of the table. -/
theorem C6_error_handling_witness :
    SpotracScraper.scrape_team_contracts none = [] ∧
    SpotracScraper.scrape_team_contracts (some emptyPage) = [] ∧
    SpotracRosterScraper.scrape_team_roster (some emptyPage) = [] ∧
    ("arizona-cardinals", ([] : List SpotracScraper.Contract)) ∈
      SpotracScraper.scrape_all_teams noFetch ∧
    ("arizona-cardinals", ([] : List SpotracRosterScraper.Player)) ∈
      SpotracRosterScraper.scrape_all_teams noFetch := by
  obtain ⟨h1, h2, h3, h4, h5, h6, h7, h8⟩ := C6_error_handling
  exact ⟨h1, h3 emptyPage (by decide), h4 emptyPage (by decide),
         h7 noFetch "arizona-cardinals" (by decide) (by decide),
         h8 noFetch "arizona-cardinals" (by decide) (by decide)⟩

/-- C7 (counterexample): a Madden roster row whose name anchor reads
`"-"` still yields a record, whose first name is `"-"`; the Madden
pipeline has no empty-or-placeholder name check. -/
theorem C7_counterexample :
    (MaddenScraperWorking.maddenRow c7Row).isSome = true ∧
    maddenRowName c7Row = some "-" := by decide

/-- C7 (amended): in the two Spotrac pipelines a row whose extracted
name is empty or `"-"` yields no record, so no output record carries
such a name; the Madden pipeline performs no such check. -/
theorem C7_amended :
    (∀ (cols : List Cell) (p : SpotracRosterScraper.Player),
       SpotracRosterScraper.rosterRow cols = some p →
       p.player_name ≠ "" ∧ p.player_name ≠ "-") ∧
    (∀ (cols : List Cell) (c : SpotracScraper.Contract),
       SpotracScraper.contractRow cols = some c →
       c.player_name ≠ "" ∧ c.player_name ≠ "-") := by
  constructor
  · intro cols p h
    match cols with
    | [] => simp [SpotracRosterScraper.rosterRow] at h
    | [c0] => simp [SpotracRosterScraper.rosterRow] at h
    | [c0, c1] => simp [SpotracRosterScraper.rosterRow] at h
    | c0 :: c1 :: c2 :: rest =>
      simp only [SpotracRosterScraper.rosterRow] at h
      split_ifs at h with hname
      obtain rfl := Option.some.inj h
      exact ⟨fun he => hname (Or.inl he), fun hd => hname (Or.inr hd)⟩
  · intro cols c h
    match cols with
    | [] => simp [SpotracScraper.contractRow] at h
    | [c0] => simp [SpotracScraper.contractRow] at h
    | [c0, c1] => simp [SpotracScraper.contractRow] at h
    | [c0, c1, c2] => simp [SpotracScraper.contractRow] at h
    | c0 :: c1 :: c2 :: c3 :: rest =>
      simp only [SpotracScraper.contractRow] at h
      split_ifs at h with hname
      · obtain rfl := Option.some.inj h
        exact ⟨fun he => hname (Or.inl he), fun hd => hname (Or.inr hd)⟩
      · obtain rfl := Option.some.inj h
        exact ⟨fun he => hname (Or.inl he), fun hd => hname (Or.inr hd)⟩

/-- C7 (witness): the amended theorem applied to concrete well-formed
rows of both Spotrac pipelines. -/
theorem C7_amended_witness :
    SpotracRosterScraper.rosterRow c7RosterRow = some c7RosterPlayer ∧
    (c7RosterPlayer.player_name ≠ "" ∧ c7RosterPlayer.player_name ≠ "-") ∧
    SpotracScraper.contractRow c7ContractRow = some c7Contract ∧
    (c7Contract.player_name ≠ "" ∧ c7Contract.player_name ≠ "-") :=
  ⟨by decide, C7_amended.1 c7RosterRow c7RosterPlayer (by decide),
   by decide, C7_amended.2 c7ContractRow c7Contract (by decide)⟩

/-- C8 (counterexample): under an oracle where only the last team's page
loads (yielding one record), the Madden batch trace is 32 consecutive
fetches followed by a final sleep: no sleep separates any two
consecutive requests and a sleep runs after the last one. -/
theorem C8_counterexample :
    MaddenScraperWorking.maddenAllTrace c8Fetch none =
      ((nflTeamsTable.map Prod.fst).map Event.fetch) ++ [Event.sleep] ∧
    (MaddenScraperWorking.maddenAllTrace c8Fetch none).getLast? = some Event.sleep := by
  decide

/-- C8 (amended): the two Spotrac batch runs sleep exactly once between
consecutive per-team requests and never after the last, regardless of
results; the Madden batch run instead sleeps immediately after each
per-team request that yielded at least one record, including possibly
the last, and skips the sleep after teams yielding none. -/
theorem C8_amended :
    spotracContractsTrace = sepBySleep (nflTeamsTable.map Prod.fst) ∧
    spotracRosterTrace = sepBySleep (nflTeamsTable.map Prod.fst) ∧
    (∀ (fetch : String → Option Page) (teams : List String),
       MaddenScraperWorking.maddenBatchTrace fetch teams = maddenSleepBlocks fetch teams) := by
  refine ⟨by decide, by decide, ?_⟩
  intro fetch teams
  induction teams with
  | nil => rfl
  | cons t ts ih =>
    simp only [MaddenScraperWorking.maddenBatchTrace, maddenSleepBlocks,
      List.map_cons, List.flatten_cons]
    split_ifs with he
    · simpa [maddenSleepBlocks] using ih
    · simpa [maddenSleepBlocks] using ih

/-- Looking a path up after a write sequence yields the last written
content for that path, or falls through to the prior state. -/
theorem applyWrites_lookup :
    ∀ (ws : List (String × String)) (fs : FS) (q : String),
      applyWrites ws fs q =
        match lastContent q ws with
        | some c => some c
        | none => fs q := by
  intro ws
  induction ws with
  | nil => intro fs q; rfl
  | cons w ws ih =>
    intro fs q
    obtain ⟨p, c⟩ := w
    simp only [applyWrites, lastContent, ih]
    cases lastContent q ws with
    | some c' => rfl
    | none =>
      simp only [writeFile]
      split_ifs <;> rfl

/-- Replaying the same write sequence is a no-op. -/
theorem applyWrites_idem (ws : List (String × String)) (fs : FS) :
    applyWrites ws (applyWrites ws fs) = applyWrites ws fs := by
  funext q
  rw [applyWrites_lookup]
  cases h : lastContent q ws with
  | some c => rw [applyWrites_lookup, h]
  | none => rfl

/-- C9 (confirmed): exporting the same in-memory dataset twice produces
byte-identical JSON files — a successful roster export followed by a
second export of the same dataset leaves the directory unchanged, and
the Madden export is likewise idempotent; all file contents are a
deterministic function of the dataset with fixed key order and 2-space
indentation. -/
theorem C9_export_idempotent :
    (∀ (data : List (String × List SpotracRosterScraper.Player)) (dir : String)
       (fs fs1 : FS),
       SpotracRosterScraper.export_to_json data dir fs = some fs1 →
       SpotracRosterScraper.export_to_json data dir fs1 = some fs1) ∧
    (∀ (data : List (MaddenScraperWorking.Player ×
         MaddenScraperWorking.PlayerAttributes × String)) (dir : String) (fs : FS),
       MaddenScraperWorking.export_to_json data dir
           (MaddenScraperWorking.export_to_json data dir fs) =
         MaddenScraperWorking.export_to_json data dir fs) := by
  constructor
  · intro data dir fs fs1 h
    unfold SpotracRosterScraper.export_to_json at h ⊢
    cases hw : SpotracRosterScraper.teamFileWrites dir data with
    | none => rw [hw] at h; exact absurd h (by simp)
    | some ws =>
      cases he : SpotracRosterScraper.summaryEntries data with
      | none => rw [hw, he] at h; exact absurd h (by simp)
      | some es =>
        rw [hw, he] at h
        obtain rfl := Option.some.inj h
        exact congrArg some (applyWrites_idem _ _)
  · intro data dir fs
    unfold MaddenScraperWorking.export_to_json
    exact applyWrites_idem _ _

/-- C9 (witness): the roster half of the theorem applied to the empty
dataset exported into directory `d` starting from an empty directory. -/
theorem C9_export_idempotent_witness :
    SpotracRosterScraper.export_to_json [] "d" emptyFS = some c9FS ∧
    SpotracRosterScraper.export_to_json [] "d" c9FS = some c9FS :=
  ⟨rfl, C9_export_idempotent.1 [] "d" emptyFS c9FS rfl⟩

/-- The fuelled digit expansion is exact once the fuel covers the input. -/
theorem digitsLEVal_natDigitsLEFuel :
    ∀ (f n : Nat), n ≤ f → digitsLEVal (natDigitsLEFuel f n) = n := by
  intro f
  induction f with
  | zero =>
    intro n hn
    have : n = 0 := Nat.le_zero.mp hn
    subst this
    rfl
  | succ f ih =>
    intro n hn
    match n with
    | 0 => rfl
    | m + 1 =>
      have hd : (m + 1) / 10 ≤ f := by
        have := Nat.div_lt_self (Nat.succ_pos m) (by omega : 1 < 10)
        omega
      simp only [natDigitsLEFuel, digitsLEVal, ih _ hd]
      omega

/-- Every digit produced by the fuelled expansion is below 10. -/
theorem natDigitsLEFuel_lt :
    ∀ (f n d : Nat), d ∈ natDigitsLEFuel f n → d < 10 := by
  intro f
  induction f with
  | zero => intro n d hd; simp [natDigitsLEFuel] at hd
  | succ f ih =>
    intro n d hd
    match n with
    | 0 => simp [natDigitsLEFuel] at hd
    | m + 1 =>
      simp only [natDigitsLEFuel, List.mem_cons] at hd
      rcases hd with h | h
      · omega
      · exact ih _ _ h

/-- Trailing zero digits do not change the value of a little-endian
digit list. -/
theorem digitsLEVal_append_zeros :
    ∀ (ds : List Nat) (k : Nat), digitsLEVal (ds ++ List.replicate k 0) = digitsLEVal ds := by
  intro ds
  induction ds with
  | nil =>
    intro k
    induction k with
    | zero => rfl
    | succ k ihk => simpa [digitsLEVal, List.replicate_succ] using ihk
  | cons d ds ih =>
    intro k
    simp [digitsLEVal, ih]

/-- Reading back the zero-padded decimal string recovers the number. -/
theorem charsBEVal_padZeros4 (n : Nat) :
    charsBEVal (padZeros4 (natStrChars n)) = n := by
  unfold charsBEVal padZeros4 natStrChars
  rw [List.map_append, List.map_replicate, List.reverse_append, List.reverse_replicate]
  have h0 : ('0'.toNat - 48) = 0 := by decide
  rw [h0]
  rw [List.map_reverse, List.reverse_reverse, List.map_map]
  have hmap :
      ((natDigitsLE n).map ((fun c => c.toNat - 48) ∘ digitChar10)) =
        (natDigitsLE n).map id := by
    apply List.map_congr_left
    intro d hd
    have hlt : d < 10 := natDigitsLEFuel_lt n n d hd
    interval_cases d <;> decide
  rw [hmap, List.map_id, digitsLEVal_append_zeros]
  exact digitsLEVal_natDigitsLEFuel n n le_rfl

/-- The synthetic player identifiers are pairwise distinct. -/
theorem player_id_str_inj : Function.Injective MaddenScraperWorking.player_id_str := by
  intro a b h
  have h2 : "player_".data ++ padZeros4 (natStrChars a) =
      "player_".data ++ padZeros4 (natStrChars b) := congrArg String.data h
  have h3 := List.append_cancel_left h2
  have h4 := congrArg charsBEVal h3
  rwa [charsBEVal_padZeros4, charsBEVal_padZeros4] at h4

/-- C10 (confirmed): the Madden exporter emits players and attributes
lists of equal length, the i-th player id is `player_` followed by the
4-wide zero-padded index, all ids are distinct, and the i-th attribute
record points back at the i-th player id. -/
theorem C10_export_ids :
    ∀ data : List (MaddenScraperWorking.Player ×
        MaddenScraperWorking.PlayerAttributes × String),
    (MaddenScraperWorking.exportRecords data).1.length = data.length ∧
    (MaddenScraperWorking.exportRecords data).2.length = data.length ∧
    (MaddenScraperWorking.exportRecords data).1.map MaddenScraperWorking.PlayerOut.id =
      (List.range data.length).map MaddenScraperWorking.player_id_str ∧
    (MaddenScraperWorking.exportRecords data).2.map MaddenScraperWorking.AttrOut.player_id =
      (List.range data.length).map MaddenScraperWorking.player_id_str ∧
    ((MaddenScraperWorking.exportRecords data).1.map MaddenScraperWorking.PlayerOut.id).Nodup ∧
    MaddenScraperWorking.player_id_str 0 = "player_0000" ∧
    MaddenScraperWorking.player_id_str 123 = "player_0123" := by
  intro data
  have hids :
      (MaddenScraperWorking.exportRecords data).1.map MaddenScraperWorking.PlayerOut.id =
        (List.range data.length).map MaddenScraperWorking.player_id_str := by
    calc (MaddenScraperWorking.exportRecords data).1.map MaddenScraperWorking.PlayerOut.id
        = data.enum.map (fun e => MaddenScraperWorking.player_id_str e.1) := by
          simp [MaddenScraperWorking.exportRecords, List.map_map, Function.comp]
      _ = (data.enum.map Prod.fst).map MaddenScraperWorking.player_id_str := by
          rw [List.map_map]; rfl
      _ = (List.range data.length).map MaddenScraperWorking.player_id_str := by
          rw [List.enum_map_fst]
  have hatt :
      (MaddenScraperWorking.exportRecords data).2.map MaddenScraperWorking.AttrOut.player_id =
        (List.range data.length).map MaddenScraperWorking.player_id_str := by
    calc (MaddenScraperWorking.exportRecords data).2.map MaddenScraperWorking.AttrOut.player_id
        = data.enum.map (fun e => MaddenScraperWorking.player_id_str e.1) := by
          simp [MaddenScraperWorking.exportRecords, List.map_map, Function.comp]
      _ = (data.enum.map Prod.fst).map MaddenScraperWorking.player_id_str := by
          rw [List.map_map]; rfl
      _ = (List.range data.length).map MaddenScraperWorking.player_id_str := by
          rw [List.enum_map_fst]
  refine ⟨?_, ?_, hids, hatt, ?_, by decide, by decide⟩
  · simp [MaddenScraperWorking.exportRecords]
  · simp [MaddenScraperWorking.exportRecords]
  · rw [hids]
    exact (List.nodup_range data.length).map player_id_str_inj
